import Mathlib

/-!
Verification of the RepliesController of the messagemedia messages SDK
(src/lib/Controllers/RepliesController.js).

The controller exposes two operations, createConfirmRepliesAsReceived and
getCheckReplies.  Each builds an HTTP request description from process-wide
configuration, dispatches it through an external transport, and classifies
the transport outcome into callback invocations and a promise settlement.

The embedding below models:
  - the request-construction phase of each operation as a pure function from
    a configuration value (and, for the confirm operation, a JSON body) to a
    request-options record, mirroring lines 49-75 and 202-223 of the source;
  - the transport callback of each operation as a pure function from the
    transport outcome to either an ordered trace of events (callback calls and
    promise settlements, in program order) or an uncaught fault (the
    unguarded JSON.parse / object-mapper failure in the success branch),
    mirroring lines 79-105 and 227-250 of the source.

External collaborators that are not part of the repository source
(APIHelper.cleanUrl, APIHelper.cleanObject, APIHelper.jsonSerialize,
BaseController.validateResponse, the configuration module) are modelled from
the specification's description of their contracts; each such definition is
marked in its documentation string.  JSON parsing and the object mapper are
kept abstract: the handlers are parametrised over them as possibly-failing
functions.
-/

/-- A JSON value, the shape of request bodies and parsed response payloads. -/
inductive Json where
  | null : Json
  | bool : Bool → Json
  | num : Int → Json
  | str : String → Json
  | arr : List Json → Json
  | obj : List (String × Json) → Json

/-- An HTTP response as seen by the transport callback: a numeric status code
and a raw (unparsed) body string. -/
structure HttpResponse where
  statusCode : Nat
  body : String

/-- Transport-layer context accompanying a response, treated opaquely by the
controller (it is only passed through to the callback and to
validateResponse). -/
structure HttpContext where
  id : Nat

/-- The two shapes of the transport callback invocation
(_error, _response, _context) that the controller distinguishes: either the
transport reports a network-level failure (the error argument is set and no
usable response exists), or a response was received. -/
inductive TransportResult where
  | failure : HttpContext → TransportResult
  | response : HttpResponse → HttpContext → TransportResult

/-- An error value delivered to the callback and used as the promise rejection
value: either the object literal built in the dedicated 400 branch of the
confirm operation (errorMessage, errorCode, errorResponse fields), or the
generic validation-derived error of the fallback path. -/
inductive ApiError where
  | clientError : String → Nat → String → ApiError
  | transportError : HttpContext → ApiError

/-- The record returned by BaseController.validateResponse, whose fields are
handed to the callback as (error, response, context). -/
structure ErrorResponse where
  error : ApiError
  response : Option Json
  context : HttpContext

/-- Modelled from the spec: BaseController.validateResponse (the BaseController
module is not part of the provided source).  The spec describes it as the
generic validation fallback that produces a TransportError carrying a
validation-derived error object and no response payload, built from the raw
context. -/
def validateResponse (context : HttpContext) (_methodName : String) : ErrorResponse :=
  { error := ApiError.transportError context
    response := Option.none
    context := context }

/-- An observable event of one transport-callback run, in program order:
an invocation of the user callback (error slot, payload slot, context), a
promise resolution, or a promise rejection. -/
inductive Event where
  | callback : Option ApiError → Option Json → HttpContext → Event
  | fulfill : Json → Event
  | reject : ApiError → Event

/-- An uncaught fault escaping the success branch: the source does not guard
JSON.parse (both operations) or the object-mapper call (getCheckReplies). -/
inductive Fault where
  | jsonParseError : Fault
  | mappingError : Fault

/-- Line 45 / line 198 of the source: the operation substitutes a no-op
placeholder when the caller passes no callback function. -/
def defaultedCallback
    (callback : Option (Option ApiError → Option Json → HttpContext → Unit)) :
    Option ApiError → Option Json → HttpContext → Unit :=
  match callback with
  | Option.some f => f
  | Option.none => fun _ _ _ => ()

/-- The transport callback of createConfirmRepliesAsReceived (source lines
81-104), parametrised over the external JSON parser (Option.none models a
thrown parse error).  It returns the ordered trace of callback invocations and
promise settlements, or the uncaught fault of the unguarded success branch. -/
def createConfirmRepliesAsReceivedOnResponse (parse : String → Option Json)
    (t : TransportResult) : Except Fault (List Event) :=
  match t with
  | TransportResult.failure ctx =>
      let errorResponse := validateResponse ctx "createConfirmRepliesAsReceived"
      Except.ok [Event.callback (Option.some errorResponse.error) errorResponse.response
                   errorResponse.context,
                 Event.reject errorResponse.error]
  | TransportResult.response resp ctx =>
      if 200 ≤ resp.statusCode ∧ resp.statusCode ≤ 206 then
        match parse resp.body with
        | Option.some parsed =>
            Except.ok [Event.callback Option.none (Option.some parsed) ctx,
                       Event.fulfill parsed]
        | Option.none => Except.error Fault.jsonParseError
      else if resp.statusCode = 400 then
        let e := ApiError.clientError "" 400 resp.body
        Except.ok [Event.callback (Option.some e) Option.none ctx, Event.reject e]
      else
        let errorResponse := validateResponse ctx "createConfirmRepliesAsReceived"
        Except.ok [Event.callback (Option.some errorResponse.error) errorResponse.response
                     errorResponse.context,
                   Event.reject errorResponse.error]

/-- The transport callback of getCheckReplies (source lines 229-249),
parametrised over the external JSON parser and the external object mapper
(Option.none models a thrown failure of either).  There is no dedicated 400
branch: every non-2xx outcome goes through the generic validation fallback. -/
def getCheckRepliesOnResponse (parse : String → Option Json)
    (mapObject : Json → Option Json) (t : TransportResult) :
    Except Fault (List Event) :=
  match t with
  | TransportResult.failure ctx =>
      let errorResponse := validateResponse ctx "getCheckReplies"
      Except.ok [Event.callback (Option.some errorResponse.error) errorResponse.response
                   errorResponse.context,
                 Event.reject errorResponse.error]
  | TransportResult.response resp ctx =>
      if 200 ≤ resp.statusCode ∧ resp.statusCode ≤ 206 then
        match parse resp.body with
        | Option.some parsed =>
            match mapObject parsed with
            | Option.some mapped =>
                Except.ok [Event.callback Option.none (Option.some mapped) ctx,
                           Event.fulfill mapped]
            | Option.none => Except.error Fault.mappingError
        | Option.none => Except.error Fault.jsonParseError
      else
        let errorResponse := validateResponse ctx "getCheckReplies"
        Except.ok [Event.callback (Option.some errorResponse.error) errorResponse.response
                     errorResponse.context,
                   Event.reject errorResponse.error]

/-- Event filter: is this event an invocation of the user callback? -/
def isCallbackEvent : Event → Bool
  | Event.callback _ _ _ => true
  | _ => false

/-- Event filter: is this event a settlement of the returned promise? -/
def isSettleEvent : Event → Bool
  | Event.fulfill _ => true
  | Event.reject _ => true
  | _ => false

/-- Event filter: is this event a promise resolution? -/
def isFulfillEvent : Event → Bool
  | Event.fulfill _ => true
  | _ => false

/-- Number of user-callback invocations in a trace. -/
def callbackCount (evs : List Event) : Nat := (evs.filter isCallbackEvent).length

/-- Number of promise settlements (resolutions plus rejections) in a trace. -/
def settleCount (evs : List Event) : Nat := (evs.filter isSettleEvent).length

/-- Number of promise resolutions in a trace. -/
def fulfillCount (evs : List Event) : Nat := (evs.filter isFulfillEvent).length

/-- Modelled from the spec: the character-level pass of APIHelper.cleanUrl (the
APIHelper module is not part of the provided source).  The spec describes
cleanUrl as normalising the concatenation of base URI and path by collapsing
duplicate separators; this pass drops a slash whose previously kept character
is also a slash, so every run of slashes is collapsed to a single one. -/
def cleanChars (prev : Option Char) : List Char → List Char
  | [] => []
  | c :: cs =>
      if c = '/' ∧ prev = Option.some '/' then cleanChars prev cs
      else c :: cleanChars (Option.some c) cs

/-- Modelled from the spec: APIHelper.cleanUrl, the URL normalisation helper
applied to the concatenated base URI and operation path (source lines 51-54
and 204-207 call it on the concatenation).  It collapses duplicate slash
separators in the concatenation. -/
def cleanUrl (url : String) : String :=
  String.mk (cleanChars Option.none url.data)

/-- Predicate on a top-level JSON object field: does it carry a null value? -/
def isNullField (p : String × Json) : Bool :=
  match p.2 with
  | Json.null => true
  | _ => false

/-- Modelled from the spec: APIHelper.cleanObject (the APIHelper module is not
part of the provided source).  The spec describes it as the strip-null-fields
pass applied to the request body before serialization, performed as an
in-place mutation of the caller's object; this function is the value of the
body object after that mutation. -/
def cleanObject : Json → Json
  | Json.obj fields => Json.obj (fields.filter (fun p => !isNullField p))
  | j => j

mutual

/-- Modelled from the spec: APIHelper.jsonSerialize, the external JSON
serialization utility applied to the cleaned request body (source line 72). -/
def jsonSerialize : Json → String
  | Json.null => "null"
  | Json.bool b => if b then "true" else "false"
  | Json.num n => toString n
  | Json.str s => "\"" ++ s ++ "\""
  | Json.arr xs => "[" ++ jsonSerializeList xs ++ "]"
  | Json.obj fs => "\x7b" ++ jsonSerializeFields fs ++ "\x7d"

/-- Serialization of the elements of a JSON array, comma separated. -/
def jsonSerializeList : List Json → String
  | [] => ""
  | [x] => jsonSerialize x
  | x :: xs => jsonSerialize x ++ "," ++ jsonSerializeList xs

/-- Serialization of the fields of a JSON object, comma separated. -/
def jsonSerializeFields : List (String × Json) → String
  | [] => ""
  | [(k, v)] => "\"" ++ k ++ "\":" ++ jsonSerialize v
  | (k, v) :: fs => "\"" ++ k ++ "\":" ++ jsonSerialize v ++ "," ++ jsonSerializeFields fs

end

/-- Modelled from the spec: the process-wide configuration module (not part of
the provided source), exposing the base URI and the basic-auth credentials
that each operation reads (source lines 49, 73-74, 202, 221-222). -/
structure Configuration where
  BASEURI : String
  basicAuthUserName : String
  basicAuthPassword : String

/-- The request-options record handed to the transport (source lines 68-75 and
217-223).  The getCheckReplies options carry no body field, modelled as
Option.none. -/
structure Request where
  queryUrl : String
  method : String
  headers : List (String × String)
  body : Option String
  username : String
  password : String

/-- The request-construction phase of createConfirmRepliesAsReceived (source
lines 49-75): the query URL is the cleaned concatenation of the configured
base URI and the fixed path, method POST, the three fixed headers in source
order, the body serialized after the strip-null-fields pass, and the
basic-auth credentials read from the configuration. -/
def createConfirmRepliesAsReceivedOptions (cfg : Configuration) (body : Json) :
    Request :=
  let _queryBuilder := cfg.BASEURI ++ "/v1/replies/confirmed"
  let _queryUrl := cleanUrl _queryBuilder
  { queryUrl := _queryUrl
    method := "POST"
    headers := [("accept", "application/json"),
                ("content-type", "application/json; charset=utf-8"),
                ("user-agent", "messagemedia-messages-nodejs-sdk-1.0.0")]
    body := Option.some (jsonSerialize (cleanObject body))
    username := cfg.basicAuthUserName
    password := cfg.basicAuthPassword }

/-- The value of the caller's body object after createConfirmRepliesAsReceived
returns: source line 65 applies the strip-null-fields pass to the caller's
object itself (an in-place mutation), before serialization. -/
def createConfirmRepliesAsReceivedBodyAfterCall (body : Json) : Json :=
  cleanObject body

/-- The request-construction phase of getCheckReplies (source lines 202-223):
the query URL is the cleaned concatenation of the configured base URI and the
fixed path, method GET, the two fixed headers in source order, no body, and
the basic-auth credentials read from the configuration. -/
def getCheckRepliesOptions (cfg : Configuration) : Request :=
  let _queryBuilder := cfg.BASEURI ++ "/v1/replies"
  let _queryUrl := cleanUrl _queryBuilder
  { queryUrl := _queryUrl
    method := "GET"
    headers := [("accept", "application/json"),
                ("user-agent", "messagemedia-messages-nodejs-sdk-1.0.0")]
    body := Option.none
    username := cfg.basicAuthUserName
    password := cfg.basicAuthPassword }

/-- Bool-valued check that no top-level field of the body object carries a
null value (vacuously true for non-object bodies). -/
def hasNoNullField : Json → Bool
  | Json.obj fields => fields.all (fun p => !isNullField p)
  | _ => true

/-- Every classified (non-fault) run of the confirm transport callback yields
one of two trace shapes: a null-error callback followed by a resolution with
the same payload, or an error callback followed by a rejection with the same
error value. -/
theorem confirmOnResponse_ok_shape (parse : String → Option Json)
    (t : TransportResult) (evs : List Event)
    (h : createConfirmRepliesAsReceivedOnResponse parse t = Except.ok evs) :
    (∃ j ctx, evs = [Event.callback Option.none (Option.some j) ctx, Event.fulfill j]) ∨
    (∃ e p ctx, evs = [Event.callback (Option.some e) p ctx, Event.reject e]) := by
  cases t with
  | failure ctx =>
      simp only [createConfirmRepliesAsReceivedOnResponse, validateResponse,
        Except.ok.injEq] at h
      right
      exact ⟨_, _, _, h.symm⟩
  | response resp ctx =>
      simp only [createConfirmRepliesAsReceivedOnResponse] at h
      split at h
      · cases hp : parse resp.body with
        | none => rw [hp] at h; cases h
        | some j =>
            rw [hp] at h
            cases h
            left
            exact ⟨j, ctx, rfl⟩
      · split at h
        · cases h
          right
          exact ⟨_, _, _, rfl⟩
        · simp only [validateResponse, Except.ok.injEq] at h
          right
          exact ⟨_, _, _, h.symm⟩

/-- Every classified (non-fault) run of the check-replies transport callback
yields one of the same two trace shapes. -/
theorem getCheckOnResponse_ok_shape (parse : String → Option Json)
    (mapObject : Json → Option Json) (t : TransportResult) (evs : List Event)
    (h : getCheckRepliesOnResponse parse mapObject t = Except.ok evs) :
    (∃ j ctx, evs = [Event.callback Option.none (Option.some j) ctx, Event.fulfill j]) ∨
    (∃ e p ctx, evs = [Event.callback (Option.some e) p ctx, Event.reject e]) := by
  cases t with
  | failure ctx =>
      simp only [getCheckRepliesOnResponse, validateResponse, Except.ok.injEq] at h
      right
      exact ⟨_, _, _, h.symm⟩
  | response resp ctx =>
      simp only [getCheckRepliesOnResponse] at h
      split at h
      · cases hp : parse resp.body with
        | none => rw [hp] at h; cases h
        | some j =>
            simp only [hp] at h
            cases hm : mapObject j with
            | none => simp only [hm] at h; cases h
            | some m =>
                simp only [hm, Except.ok.injEq] at h
                left
                exact ⟨m, ctx, h.symm⟩
      · simp only [validateResponse, Except.ok.injEq] at h
        right
        exact ⟨_, _, _, h.symm⟩

/-- C1: For every call to createConfirmRepliesAsReceived and getCheckReplies
and every one of the four classified outcome branches (success status, 400,
other non-success status, transport failure), the callback is invoked exactly
once and the returned promise is settled exactly once — the trace is a single
null-error callback followed by a resolution on success, and a single
error callback followed by a rejection on every error branch — and when the
caller passes no callback the substituted placeholder is the no-op function,
so the guarantee still holds. -/
theorem callback_and_promise_settle_exactly_once
    (parse : String → Option Json) (mapObject : Json → Option Json)
    (t t' : TransportResult) (evs evs' : List Event)
    (hc : createConfirmRepliesAsReceivedOnResponse parse t = Except.ok evs)
    (hg : getCheckRepliesOnResponse parse mapObject t' = Except.ok evs') :
    (callbackCount evs = 1 ∧ settleCount evs = 1) ∧
    (callbackCount evs' = 1 ∧ settleCount evs' = 1) ∧
    ((∃ j ctx, evs = [Event.callback Option.none (Option.some j) ctx, Event.fulfill j]) ∨
     (∃ e p ctx, evs = [Event.callback (Option.some e) p ctx, Event.reject e])) ∧
    ((∃ j ctx, evs' = [Event.callback Option.none (Option.some j) ctx, Event.fulfill j]) ∨
     (∃ e p ctx, evs' = [Event.callback (Option.some e) p ctx, Event.reject e])) ∧
    (∀ e p ctx, defaultedCallback Option.none e p ctx = ()) := by
  have h1 := confirmOnResponse_ok_shape parse t evs hc
  have h2 := getCheckOnResponse_ok_shape parse mapObject t' evs' hg
  refine ⟨?_, ?_, h1, h2, fun _ _ _ => rfl⟩
  · rcases h1 with ⟨j, ctx, rfl⟩ | ⟨e, p, ctx, rfl⟩ <;> exact ⟨rfl, rfl⟩
  · rcases h2 with ⟨j, ctx, rfl⟩ | ⟨e, p, ctx, rfl⟩ <;> exact ⟨rfl, rfl⟩

/-- Concrete instantiation of the exactly-once guarantee at the
transport-failure branch of both operations. -/
theorem callback_and_promise_settle_exactly_once_witness :
    (callbackCount [Event.callback (Option.some (ApiError.transportError (HttpContext.mk 0)))
          Option.none (HttpContext.mk 0),
        Event.reject (ApiError.transportError (HttpContext.mk 0))] = 1 ∧
      settleCount [Event.callback (Option.some (ApiError.transportError (HttpContext.mk 0)))
          Option.none (HttpContext.mk 0),
        Event.reject (ApiError.transportError (HttpContext.mk 0))] = 1) ∧
    (callbackCount [Event.callback (Option.some (ApiError.transportError (HttpContext.mk 0)))
          Option.none (HttpContext.mk 0),
        Event.reject (ApiError.transportError (HttpContext.mk 0))] = 1 ∧
      settleCount [Event.callback (Option.some (ApiError.transportError (HttpContext.mk 0)))
          Option.none (HttpContext.mk 0),
        Event.reject (ApiError.transportError (HttpContext.mk 0))] = 1) ∧
    ((∃ j ctx, [Event.callback (Option.some (ApiError.transportError (HttpContext.mk 0)))
          Option.none (HttpContext.mk 0),
        Event.reject (ApiError.transportError (HttpContext.mk 0))] =
          [Event.callback Option.none (Option.some j) ctx, Event.fulfill j]) ∨
     (∃ e p ctx, [Event.callback (Option.some (ApiError.transportError (HttpContext.mk 0)))
          Option.none (HttpContext.mk 0),
        Event.reject (ApiError.transportError (HttpContext.mk 0))] =
          [Event.callback (Option.some e) p ctx, Event.reject e])) ∧
    ((∃ j ctx, [Event.callback (Option.some (ApiError.transportError (HttpContext.mk 0)))
          Option.none (HttpContext.mk 0),
        Event.reject (ApiError.transportError (HttpContext.mk 0))] =
          [Event.callback Option.none (Option.some j) ctx, Event.fulfill j]) ∨
     (∃ e p ctx, [Event.callback (Option.some (ApiError.transportError (HttpContext.mk 0)))
          Option.none (HttpContext.mk 0),
        Event.reject (ApiError.transportError (HttpContext.mk 0))] =
          [Event.callback (Option.some e) p ctx, Event.reject e])) ∧
    (∀ e p ctx, defaultedCallback Option.none e p ctx = ()) :=
  callback_and_promise_settle_exactly_once (fun _ => Option.none) (fun _ => Option.none)
    (TransportResult.failure (HttpContext.mk 0)) (TransportResult.failure (HttpContext.mk 0))
    _ _ rfl rfl

/-- C2: For every transport response with status code in the range 200 to 206,
both operations treat the call as success: the body is handed to the JSON
parser, the confirm operation invokes the callback with (null error, parsed
value, raw context) and resolves the promise with the parsed value
unmodified, and the check-replies operation first maps the parsed value
through the object mapper and delivers the mapped value the same way. -/
theorem success_status_parses_resolves_and_calls_back
    (parse : String → Option Json) (mapObject : Json → Option Json)
    (resp : HttpResponse) (ctx : HttpContext) (j m : Json)
    (h200 : 200 ≤ resp.statusCode) (h206 : resp.statusCode ≤ 206)
    (hp : parse resp.body = Option.some j) (hm : mapObject j = Option.some m) :
    createConfirmRepliesAsReceivedOnResponse parse (TransportResult.response resp ctx) =
      Except.ok [Event.callback Option.none (Option.some j) ctx, Event.fulfill j] ∧
    getCheckRepliesOnResponse parse mapObject (TransportResult.response resp ctx) =
      Except.ok [Event.callback Option.none (Option.some m) ctx, Event.fulfill m] := by
  constructor
  · simp only [createConfirmRepliesAsReceivedOnResponse, hp,
      if_pos (And.intro h200 h206)]
  · simp only [getCheckRepliesOnResponse, hp, hm, if_pos (And.intro h200 h206)]

/-- Concrete instantiation of the success branch at status 200. -/
theorem success_status_parses_resolves_and_calls_back_witness :
    ((200:Nat) ≤ (HttpResponse.mk 200 "raw").statusCode ∧
      (HttpResponse.mk 200 "raw").statusCode ≤ 206) ∧
    createConfirmRepliesAsReceivedOnResponse (fun _ => Option.some (Json.num 1))
        (TransportResult.response (HttpResponse.mk 200 "raw") (HttpContext.mk 0)) =
      Except.ok [Event.callback Option.none (Option.some (Json.num 1)) (HttpContext.mk 0),
                 Event.fulfill (Json.num 1)] ∧
    getCheckRepliesOnResponse (fun _ => Option.some (Json.num 1))
        (fun _ => Option.some (Json.num 2))
        (TransportResult.response (HttpResponse.mk 200 "raw") (HttpContext.mk 0)) =
      Except.ok [Event.callback Option.none (Option.some (Json.num 2)) (HttpContext.mk 0),
                 Event.fulfill (Json.num 2)] :=
  ⟨⟨by decide, by decide⟩,
   success_status_parses_resolves_and_calls_back (fun _ => Option.some (Json.num 1))
     (fun _ => Option.some (Json.num 2)) (HttpResponse.mk 200 "raw") (HttpContext.mk 0)
     (Json.num 1) (Json.num 2) (by decide) (by decide) rfl rfl⟩

/-- C3: For every transport response with status code exactly 400, the confirm
operation — and only it — builds the client-error object with errorCode 400,
empty errorMessage, and the raw unparsed response body attached, delivers it
as the callback's error argument and as the rejection value; the result does
not depend on the JSON parser (the right-hand side mentions no parse), so no
JSON parsing of the body is attempted.  getCheckReplies has no dedicated 400
branch: a 400 goes through the generic validation fallback. -/
theorem confirm_400_builds_client_error_check_uses_fallback
    (parse : String → Option Json) (mapObject : Json → Option Json)
    (resp : HttpResponse) (ctx : HttpContext) (h400 : resp.statusCode = 400) :
    createConfirmRepliesAsReceivedOnResponse parse (TransportResult.response resp ctx) =
      Except.ok [Event.callback (Option.some (ApiError.clientError "" 400 resp.body))
                   Option.none ctx,
                 Event.reject (ApiError.clientError "" 400 resp.body)] ∧
    getCheckRepliesOnResponse parse mapObject (TransportResult.response resp ctx) =
      Except.ok [Event.callback (Option.some (validateResponse ctx "getCheckReplies").error)
                   (validateResponse ctx "getCheckReplies").response
                   (validateResponse ctx "getCheckReplies").context,
                 Event.reject (validateResponse ctx "getCheckReplies").error] := by
  have hnot : ¬(200 ≤ resp.statusCode ∧ resp.statusCode ≤ 206) := by omega
  constructor
  · simp only [createConfirmRepliesAsReceivedOnResponse, if_neg hnot, if_pos h400]
  · simp only [getCheckRepliesOnResponse, if_neg hnot]

/-- Concrete instantiation of the 400 branch for both operations. -/
theorem confirm_400_builds_client_error_check_uses_fallback_witness :
    ((HttpResponse.mk 400 "bad ids").statusCode = 400) ∧
    createConfirmRepliesAsReceivedOnResponse (fun _ => Option.none)
        (TransportResult.response (HttpResponse.mk 400 "bad ids") (HttpContext.mk 0)) =
      Except.ok [Event.callback (Option.some (ApiError.clientError "" 400 "bad ids"))
                   Option.none (HttpContext.mk 0),
                 Event.reject (ApiError.clientError "" 400 "bad ids")] ∧
    getCheckRepliesOnResponse (fun _ => Option.none) (fun _ => Option.none)
        (TransportResult.response (HttpResponse.mk 400 "bad ids") (HttpContext.mk 0)) =
      Except.ok [Event.callback
                   (Option.some (ApiError.transportError (HttpContext.mk 0)))
                   Option.none (HttpContext.mk 0),
                 Event.reject (ApiError.transportError (HttpContext.mk 0))] :=
  ⟨rfl,
   confirm_400_builds_client_error_check_uses_fallback (fun _ => Option.none)
     (fun _ => Option.none) (HttpResponse.mk 400 "bad ids") (HttpContext.mk 0) rfl⟩

/-- C4: For every call of either operation whose transport reports a
network-level failure (error set, no usable response), the operation produces
the TransportError-shaped validation fallback object carrying no response
payload, invokes the callback with that error, and rejects the promise; the
produced trace contains no resolution, so the success path is never also
taken in the same call. -/
theorem transport_failure_rejects_and_never_resolves
    (parse : String → Option Json) (mapObject : Json → Option Json)
    (ctx : HttpContext) :
    createConfirmRepliesAsReceivedOnResponse parse (TransportResult.failure ctx) =
      Except.ok [Event.callback (Option.some (ApiError.transportError ctx)) Option.none ctx,
                 Event.reject (ApiError.transportError ctx)] ∧
    getCheckRepliesOnResponse parse mapObject (TransportResult.failure ctx) =
      Except.ok [Event.callback (Option.some (ApiError.transportError ctx)) Option.none ctx,
                 Event.reject (ApiError.transportError ctx)] ∧
    fulfillCount [Event.callback (Option.some (ApiError.transportError ctx)) Option.none ctx,
                  Event.reject (ApiError.transportError ctx)] = 0 :=
  ⟨rfl, rfl, rfl⟩

/-- C5: For every transport response with a success status code whose body the
JSON parser rejects (or, for check-replies, whose parsed value the object
mapper rejects), the failure inside the success branch is not caught: the run
ends in an uncaught fault, not in a classified trace, so no callback
invocation and no promise settlement through the classified branches
occurs. -/
theorem malformed_success_body_escapes_as_fault
    (parse : String → Option Json) (mapObject : Json → Option Json)
    (resp : HttpResponse) (ctx : HttpContext)
    (h200 : 200 ≤ resp.statusCode) (h206 : resp.statusCode ≤ 206) :
    (parse resp.body = Option.none →
      createConfirmRepliesAsReceivedOnResponse parse (TransportResult.response resp ctx) =
        Except.error Fault.jsonParseError ∧
      getCheckRepliesOnResponse parse mapObject (TransportResult.response resp ctx) =
        Except.error Fault.jsonParseError) ∧
    (∀ j, parse resp.body = Option.some j → mapObject j = Option.none →
      getCheckRepliesOnResponse parse mapObject (TransportResult.response resp ctx) =
        Except.error Fault.mappingError) ∧
    (∀ f, createConfirmRepliesAsReceivedOnResponse parse (TransportResult.response resp ctx) =
        Except.error f →
      ∀ evs, createConfirmRepliesAsReceivedOnResponse parse (TransportResult.response resp ctx) ≠
        Except.ok evs) ∧
    (∀ f, getCheckRepliesOnResponse parse mapObject (TransportResult.response resp ctx) =
        Except.error f →
      ∀ evs, getCheckRepliesOnResponse parse mapObject (TransportResult.response resp ctx) ≠
        Except.ok evs) := by
  refine ⟨fun hp => ⟨?_, ?_⟩, fun j hp hm => ?_,
    fun f hf evs hok => ?_, fun f hf evs hok => ?_⟩
  · simp only [createConfirmRepliesAsReceivedOnResponse, hp,
      if_pos (And.intro h200 h206)]
  · simp only [getCheckRepliesOnResponse, hp, if_pos (And.intro h200 h206)]
  · simp only [getCheckRepliesOnResponse, hp, hm, if_pos (And.intro h200 h206)]
  · rw [hf] at hok; cases hok
  · rw [hf] at hok; cases hok

/-- Concrete instantiation of the uncaught-fault behaviour at status 200 with
a parser that rejects the body and a mapper that rejects every value. -/
theorem malformed_success_body_escapes_as_fault_witness :
    ((200:Nat) ≤ (HttpResponse.mk 200 "not json").statusCode ∧
      (HttpResponse.mk 200 "not json").statusCode ≤ 206) ∧
    (((fun _ => Option.none : String → Option Json) (HttpResponse.mk 200 "not json").body =
        Option.none →
      createConfirmRepliesAsReceivedOnResponse (fun _ => Option.none)
          (TransportResult.response (HttpResponse.mk 200 "not json") (HttpContext.mk 0)) =
        Except.error Fault.jsonParseError ∧
      getCheckRepliesOnResponse (fun _ => Option.none) (fun _ => Option.none)
          (TransportResult.response (HttpResponse.mk 200 "not json") (HttpContext.mk 0)) =
        Except.error Fault.jsonParseError) ∧
    (∀ j, (fun _ => Option.none : String → Option Json)
          (HttpResponse.mk 200 "not json").body = Option.some j →
        (fun _ => Option.none : Json → Option Json) j = Option.none →
      getCheckRepliesOnResponse (fun _ => Option.none) (fun _ => Option.none)
          (TransportResult.response (HttpResponse.mk 200 "not json") (HttpContext.mk 0)) =
        Except.error Fault.mappingError) ∧
    (∀ f, createConfirmRepliesAsReceivedOnResponse (fun _ => Option.none)
          (TransportResult.response (HttpResponse.mk 200 "not json") (HttpContext.mk 0)) =
        Except.error f →
      ∀ evs, createConfirmRepliesAsReceivedOnResponse (fun _ => Option.none)
          (TransportResult.response (HttpResponse.mk 200 "not json") (HttpContext.mk 0)) ≠
        Except.ok evs) ∧
    (∀ f, getCheckRepliesOnResponse (fun _ => Option.none) (fun _ => Option.none)
          (TransportResult.response (HttpResponse.mk 200 "not json") (HttpContext.mk 0)) =
        Except.error f →
      ∀ evs, getCheckRepliesOnResponse (fun _ => Option.none) (fun _ => Option.none)
          (TransportResult.response (HttpResponse.mk 200 "not json") (HttpContext.mk 0)) ≠
        Except.ok evs)) :=
  ⟨⟨by decide, by decide⟩,
   malformed_success_body_escapes_as_fault (fun _ => Option.none) (fun _ => Option.none)
     (HttpResponse.mk 200 "not json") (HttpContext.mk 0) (by decide) (by decide)⟩

/-- C10: In every classified outcome branch of both operations, the callback
invocation strictly precedes the promise settlement in the produced trace: the
index of the first callback event is smaller than the index of the first
settlement event, so a caller using both styles always observes the callback
first. -/
theorem callback_invoked_before_promise_settles
    (parse : String → Option Json) (mapObject : Json → Option Json)
    (t t' : TransportResult) (evs evs' : List Event)
    (hc : createConfirmRepliesAsReceivedOnResponse parse t = Except.ok evs)
    (hg : getCheckRepliesOnResponse parse mapObject t' = Except.ok evs') :
    List.findIdx isCallbackEvent evs < List.findIdx isSettleEvent evs ∧
    List.findIdx isCallbackEvent evs' < List.findIdx isSettleEvent evs' := by
  constructor
  · rcases confirmOnResponse_ok_shape parse t evs hc with ⟨j, ctx, rfl⟩ | ⟨e, p, ctx, rfl⟩ <;>
      exact Nat.zero_lt_one
  · rcases getCheckOnResponse_ok_shape parse mapObject t' evs' hg with
      ⟨j, ctx, rfl⟩ | ⟨e, p, ctx, rfl⟩ <;> exact Nat.zero_lt_one

/-- Concrete instantiation of the callback-before-settlement ordering at the
transport-failure branch of both operations. -/
theorem callback_invoked_before_promise_settles_witness :
    List.findIdx isCallbackEvent
        [Event.callback (Option.some (ApiError.transportError (HttpContext.mk 1)))
           Option.none (HttpContext.mk 1),
         Event.reject (ApiError.transportError (HttpContext.mk 1))] <
      List.findIdx isSettleEvent
        [Event.callback (Option.some (ApiError.transportError (HttpContext.mk 1)))
           Option.none (HttpContext.mk 1),
         Event.reject (ApiError.transportError (HttpContext.mk 1))] ∧
    List.findIdx isCallbackEvent
        [Event.callback (Option.some (ApiError.transportError (HttpContext.mk 1)))
           Option.none (HttpContext.mk 1),
         Event.reject (ApiError.transportError (HttpContext.mk 1))] <
      List.findIdx isSettleEvent
        [Event.callback (Option.some (ApiError.transportError (HttpContext.mk 1)))
           Option.none (HttpContext.mk 1),
         Event.reject (ApiError.transportError (HttpContext.mk 1))] :=
  callback_invoked_before_promise_settles (fun _ => Option.none) (fun _ => Option.none)
    (TransportResult.failure (HttpContext.mk 1)) (TransportResult.failure (HttpContext.mk 1))
    _ _ rfl rfl

/-- C6: For every configuration and input body, createConfirmRepliesAsReceived
builds a POST request to the cleaned concatenation of the configured base URI
and the path /v1/replies/confirmed, with exactly the accept, content-type and
user-agent headers of the source, basic-auth username and password drawn from
the configuration, and a body serialized to JSON after the strip-null-fields
pass; the second conjunct shows no client-side validation of the 100-item
cap or of identifier format: a reply_ids body of any length whatsoever is
serialized as-is. -/
theorem confirm_request_construction (cfg : Configuration) (body : Json) :
    createConfirmRepliesAsReceivedOptions cfg body =
      { queryUrl := cleanUrl (cfg.BASEURI ++ "/v1/replies/confirmed")
        method := "POST"
        headers := [("accept", "application/json"),
                    ("content-type", "application/json; charset=utf-8"),
                    ("user-agent", "messagemedia-messages-nodejs-sdk-1.0.0")]
        body := Option.some (jsonSerialize (cleanObject body))
        username := cfg.basicAuthUserName
        password := cfg.basicAuthPassword } ∧
    (∀ ids : List String,
      (createConfirmRepliesAsReceivedOptions cfg
          (Json.obj [("reply_ids", Json.arr (ids.map Json.str))])).body =
        Option.some (jsonSerialize (Json.obj [("reply_ids", Json.arr (ids.map Json.str))]))) :=
  ⟨rfl, fun _ => rfl⟩

/-- C7: For every configuration, getCheckReplies builds a GET request to the
cleaned concatenation of the configured base URI and the path /v1/replies,
with exactly the accept and user-agent headers of the source, no request
body, and the same basic-auth credentials from the configuration. -/
theorem check_replies_request_construction (cfg : Configuration) :
    getCheckRepliesOptions cfg =
      { queryUrl := cleanUrl (cfg.BASEURI ++ "/v1/replies")
        method := "GET"
        headers := [("accept", "application/json"),
                    ("user-agent", "messagemedia-messages-nodejs-sdk-1.0.0")]
        body := Option.none
        username := cfg.basicAuthUserName
        password := cfg.basicAuthPassword } :=
  rfl

/-- The slash-collapsing pass is idempotent for every starting state. -/
theorem cleanChars_idempotent (cs : List Char) :
    ∀ prev, cleanChars prev (cleanChars prev cs) = cleanChars prev cs := by
  induction cs with
  | nil => intro prev; rfl
  | cons c cs ih =>
      intro prev
      by_cases h : c = '/' ∧ prev = Option.some '/'
      · simp only [cleanChars, if_pos h]
        exact ih prev
      · simp only [cleanChars, if_neg h]
        exact congrArg (List.cons c) (ih (Option.some c))

/-- Collapsing a doubled slash anywhere in the input gives the same output as
collapsing the single slash, for every starting state. -/
theorem cleanChars_collapse_double_slash (xs : List Char) :
    ∀ prev ys, cleanChars prev (xs ++ '/' :: '/' :: ys) =
      cleanChars prev (xs ++ '/' :: ys) := by
  induction xs with
  | nil =>
      intro prev ys
      by_cases hp : prev = Option.some '/'
      · simp [cleanChars, hp]
      · simp [cleanChars, hp]
  | cons c xs ih =>
      intro prev ys
      by_cases h : c = '/' ∧ prev = Option.some '/'
      · simp only [List.cons_append, cleanChars, if_pos h]
        exact ih prev ys
      · simp only [List.cons_append, cleanChars, if_neg h]
        exact congrArg (List.cons c) (ih (Option.some c) ys)

/-- C8: The URL normalization helper cleanUrl is idempotent (on every input,
in particular on the URLs the controller builds), and for every base URI the
URL produced for the path /v1/replies is identical whether or not the base
URI carries a trailing slash. -/
theorem cleanUrl_idempotent_and_trailing_slash_invariant (base : String) :
    cleanUrl (cleanUrl (base ++ "/v1/replies")) = cleanUrl (base ++ "/v1/replies") ∧
    cleanUrl ((base ++ "/") ++ "/v1/replies") = cleanUrl (base ++ "/v1/replies") ∧
    (∀ url : String, cleanUrl (cleanUrl url) = cleanUrl url) := by
  refine ⟨?_, ?_, ?_⟩
  · exact congrArg String.mk
      (cleanChars_idempotent (base ++ "/v1/replies").data Option.none)
  · have hdata : ((base ++ "/") ++ "/v1/replies").data =
        base.data ++ '/' :: '/' :: "v1/replies".data := by
      simp [String.data_append, List.append_assoc]
    have hdata' : (base ++ "/v1/replies").data = base.data ++ '/' :: "v1/replies".data := by
      simp [String.data_append]
    unfold cleanUrl
    rw [hdata, hdata']
    exact congrArg String.mk
      (cleanChars_collapse_double_slash base.data Option.none "v1/replies".data)
  · intro url
    exact congrArg String.mk (cleanChars_idempotent url.data Option.none)

/-- Counterexample to C9 as stated: for the input body with a single
null-valued field, the caller's request object after the call is not the same
object value as before it — the strip-null-fields pass of source line 65 is
applied to the caller's object itself and removes the field. -/
theorem confirm_mutates_null_field_body :
    createConfirmRepliesAsReceivedBodyAfterCall (Json.obj [("a", Json.null)]) ≠
      Json.obj [("a", Json.null)] := by
  simp [createConfirmRepliesAsReceivedBodyAfterCall, cleanObject, isNullField]

/-- C9 (amended): createConfirmRepliesAsReceived retains no local state and
has no side effect beyond the network call other than the in-place
strip-null-fields pass applied to the caller's body object; in particular a
body none of whose top-level fields is null is unchanged by the call, and the
process-wide configuration is only read (the request is a pure function of
its value). -/
theorem confirm_body_untouched_without_null_fields (cfg : Configuration) (body : Json)
    (h : hasNoNullField body = true) :
    createConfirmRepliesAsReceivedBodyAfterCall body = body ∧
    createConfirmRepliesAsReceivedOptions cfg body =
      createConfirmRepliesAsReceivedOptions cfg body := by
  refine ⟨?_, rfl⟩
  cases body with
  | obj fields =>
      have h' : ∀ p ∈ fields, (!isNullField p) = true := List.all_eq_true.mp h
      exact congrArg Json.obj (List.filter_eq_self.mpr h')
  | null => rfl
  | bool b => rfl
  | num n => rfl
  | str s => rfl
  | arr xs => rfl

/-- Concrete instantiation of the amended C9 at a body whose single field is
non-null: the caller's object is unchanged by the call. -/
theorem confirm_body_untouched_without_null_fields_witness :
    hasNoNullField (Json.obj [("reply_ids", Json.arr [Json.str "id-1"])]) = true ∧
    createConfirmRepliesAsReceivedBodyAfterCall
        (Json.obj [("reply_ids", Json.arr [Json.str "id-1"])]) =
      Json.obj [("reply_ids", Json.arr [Json.str "id-1"])] :=
  ⟨rfl,
   (confirm_body_untouched_without_null_fields (Configuration.mk "" "" "")
     (Json.obj [("reply_ids", Json.arr [Json.str "id-1"])]) rfl).1⟩
